import Mathlib

/-!
Verification development for the SentimentInsightUAM_SA opinion-annotation
pipeline.

The development shallowly embeds the parts of the code base that the
verified properties speak about:

* the keyword lexicon and the rule-based category scorer
  (src/ml/categorizer.py, class OpinionCategorizer);
* the weight-map construction of the sentiment analyzer
  (src/ml/__init__.py, SentimentAnalyzer.analizar / analizar_batch);
* the fetch / classify / persist orchestration of a pipeline run
  (src/ml/processor.py, OpinionProcessor.procesar_pendientes,
  procesar_por_profesor, procesar_por_curso) together with the MongoDB
  repository helpers it calls (src/db/repository.py).

Modelling conventions: Python floats on the reachable inputs are modelled
by exact rationals (the score of the scorer is a quotient of keyword counts
bounded by the lexicon size, far below any region where IEEE double
comparison against the 0.4 / 0.6 literals could disagree with the exact
comparison); Python strings are Lean Strings; the document store is a list
of documents carrying the fields the pipeline reads and writes; fallible
calls return Except.
-/

/-- The three categorization dimensions, the keys of
OpinionCategorizer.KEYWORDS. -/
inductive Categoria where
  | calidadDidactica
  | metodoEvaluacion
  | empatia
deriving DecidableEq, Repr

/-- KEYWORDS["calidad_didactica"]["positivo"], in source order. -/
def kwPositivoCalidadDidactica : List String :=
  [ "explica bien",
  "explica muy bien",
  "explica excelente",
  "explica claro",
  "explica con claridad",
  "explica de forma clara",
  "claro para explicar",
  "clases claras",
  "clase clara",
  "muy claro",
  "super claro",
  "todo claro",
  "deja todo claro",
  "no deja dudas (positiva)",
  "domina el tema",
  "domina la materia",
  "domina bastante",
  "se nota que sabe",
  "se nota que domina",
  "gran dominio",
  "mucho conocimiento",
  "conocimiento profundo",
  "muy preparado",
  "bien preparado",
  "super preparado",
  "profesor preparado",
  "profesora preparada",
  "preparado en la materia",
  "sabe mucho",
  "sabe bastante",
  "sabe lo que hace",
  "controla el tema",
  "enseña bien",
  "didáctico",
  "muy didáctico",
  "didactico",
  "buen profesor",
  "buena profesora",
  "excelente profesor",
  "excelente profesora",
  "excelente docente",
  "muy buen maestro",
  "muy buena maestra",
  "usa buenos ejemplos",
  "pone buenos ejemplos",
  "ejemplos claros",
  "ejemplos sencillos",
  "ejemplos prácticos",
  "usa ejercicios",
  "resuelve ejercicios",
  "explica paso a paso",
  "va paso a paso",
  "clases bien estructuradas",
  "clase bien estructurada",
  "organizado en clase",
  "organizada en clase",
  "sigue un orden",
  "buen manejo del tiempo",
  "buen ritmo de clase",
  "ritmo adecuado",
  "aprendí mucho",
  "aprendi mucho",
  "aprendí bastante",
  "aprendi bastante",
  "aprendes demasiado",
  "aprendí con él",
  "aprendi con el",
  "aprendí con ella",
  "se aprende bien",
  "se aprende mucho",
  "entendí todo",
  "entiendes todo",
  "se entiende todo",
  "mejoré bastante",
  "mejoré mucho",
  "muy profesional",
  "profesional en su trabajo",
  "responsable con la clase",
  "puntual con la clase",
  "llega puntual" ]

/-- KEYWORDS["calidad_didactica"]["negativo"], in source order. -/
def kwNegativoCalidadDidactica : List String :=
  [ "no explica",
  "no sabe explicar",
  "explica mal",
  "explica muy mal",
  "no explica bien",
  "explica rápido y mal",
  "explica todo rápido",
  "va muy rápido",
  "va demasiado rápido",
  "explica encima del pizarrón",
  "solo lee diapositivas",
  "solo lee las diapositivas",
  "solo dicta",
  "solo escribe",
  "confuso",
  "muy confuso",
  "clases confusas",
  "desorganizado",
  "desorganizada",
  "desordenado",
  "desordenada",
  "mal profesor",
  "mala profesora",
  "pésimo profesor",
  "pesimo profesor",
  "pésima profesora",
  "pesima profesora",
  "no enseña",
  "no se entiende",
  "no se le entiende",
  "no se entiende nada",
  "no se entiende lo que dice",
  "te pierdes en la clase",
  "uno se pierde",
  "me perdí en la clase",
  "no domina el tema",
  "no domina la materia",
  "se equivoca mucho",
  "se la pasa corrigiendo",
  "aburrido",
  "aburrida",
  "muy aburrido",
  "muy aburrida",
  "monótono",
  "monotono",
  "monótona",
  "monotona",
  "clases pesadas",
  "clase pesada",
  "improvisado",
  "improvisada",
  "improvisa la clase",
  "no prepara la clase",
  "llega sin preparar",
  "no sabe la materia",
  "no maneja el tema",
  "salta muchos temas",
  "se salta temas",
  "mezcla temas",
  "no sigue el temario",
  "no sigue el programa",
  "no respeta el programa" ]

/-- KEYWORDS["metodo_evaluacion"]["positivo"], in source order; the source list repeats "califica justo". -/
def kwPositivoMetodoEvaluacion : List String :=
  [ "justo",
  "muy justo",
  "justa",
  "muy justa",
  "bastante justo",
  "califica justo",
  "califica justo",
  "calificación justa",
  "calificacion justa",
  "exámenes justos",
  "examenes justos",
  "evalúa justo",
  "evalua justo",
  "evalúa de forma justa",
  "evalua de forma justa",
  "fair",
  "razonable",
  "muy razonable",
  "equilibrado",
  "equilibrada",
  "bien evaluado",
  "bien evaluada",
  "objetivo",
  "objetiva",
  "criterios claros",
  "criterios de evaluación claros",
  "criterios de evaluacion claros",
  "rubrica clara",
  "rúbrica clara",
  "explica cómo evalúa",
  "explica como evalua",
  "explica la forma de evaluar",
  "deja claro cómo califica",
  "deja claro como califica",
  "todo bien especificado",
  "publica rubricas",
  "publica rúbricas",
  "da oportunidad",
  "da oportunidades",
  "deja recuperar",
  "deja extraordinario",
  "permite extraordinarios",
  "acepta trabajos extra",
  "da puntos extra",
  "sube puntos",
  "sube la calificación",
  "sube la calificacion",
  "permite reposición",
  "permite reposicion",
  "mucha práctica pero justo",
  "mucha practica pero justo",
  "tareas razonables",
  "poca tarea pero efectiva",
  "proyectos razonables",
  "exámenes acordes",
  "examenes acordes",
  "evalúa lo que ve en clase",
  "evalua lo que ve en clase",
  "solo toma lo visto en clase" ]

/-- KEYWORDS["metodo_evaluacion"]["negativo"], in source order; the source list repeats "reprobados masivos". -/
def kwNegativoMetodoEvaluacion : List String :=
  [ "difícil",
  "dificil",
  "muy difícil",
  "muy dificil",
  "exigente",
  "muy exigente",
  "demasiado exigente",
  "exámenes imposibles",
  "examenes imposibles",
  "exámenes muy difíciles",
  "examenes muy dificiles",
  "preguntas rebuscadas",
  "preguntas trampas",
  "preguntas trampa",
  "reprobar",
  "reprobé a muchos",
  "reprobe a muchos",
  "reprobados masivos",
  "reprobados masivos",
  "injusto",
  "injusta",
  "muy injusto",
  "muy injusta",
  "evalúa mal",
  "evalua mal",
  "califica mal",
  "califica bajo",
  "califica muy bajo",
  "calificación arbitraria",
  "calificacion arbitraria",
  "criterios arbitrarios",
  "criterios poco claros",
  "no explica cómo evalúa",
  "no explica como evalua",
  "no explica los criterios",
  "no deja claro cómo califica",
  "no deja claro como califica",
  "subjetivo",
  "subjetiva",
  "muy subjetivo",
  "muy subjetiva",
  "caprichoso",
  "caprichosa",
  "mucha tarea",
  "demasiada tarea",
  "exceso de tarea",
  "carga excesiva",
  "carga de trabajo excesiva",
  "muchos proyectos",
  "proyectos innecesarios",
  "muchos trabajos",
  "trabajos innecesarios",
  "tareas sin sentido",
  "tarea sin sentido",
  "no evalúa lo que ve en clase",
  "no evalua lo que ve en clase",
  "exámenes de cosas que no vimos",
  "examenes de cosas que no vimos",
  "pregunta cosas que no explicó",
  "pregunta cosas que no explico",
  "toma temas que no vimos",
  "no da retroalimentación",
  "no da retroalimentacion",
  "no explica las calificaciones",
  "no entrega resultados a tiempo",
  "se tarda en calificar",
  "tarda mucho en calificar" ]

/-- KEYWORDS["empatia"]["positivo"], in source order. -/
def kwPositivoEmpatia : List String :=
  [ "comprensivo",
  "comprensiva",
  "muy comprensivo",
  "muy comprensiva",
  "accesible",
  "muy accesible",
  "amable",
  "muy amable",
  "buena onda",
  "muy buena onda",
  "relajado",
  "relajada",
  "alivianado",
  "alivianada",
  "buena persona",
  "excelente persona",
  "humano",
  "muy humano",
  "empático",
  "empática",
  "empatico",
  "empatica",
  "considerado",
  "considerada",
  "respetuoso",
  "respetuosa",
  "trato amable",
  "trato humano",
  "ayuda",
  "siempre ayuda",
  "ayuda mucho",
  "apoya a los alumnos",
  "apoya a sus alumnos",
  "apoya bastante",
  "apoya cuando puede",
  "te apoya",
  "da seguimiento",
  "se preocupa por sus alumnos",
  "se preocupa por los alumnos",
  "se interesa por el alumno",
  "se interesa por los estudiantes",
  "resuelve dudas",
  "resuelve todas las dudas",
  "respuesta rápida",
  "responde rápido",
  "responde rapido",
  "responde correos",
  "responde mensajes",
  "flexible",
  "muy flexible",
  "flexible con entregas",
  "flexible con fechas",
  "da chance",
  "da chance con tareas",
  "da prórrogas",
  "da prorrogas",
  "da oportunidad de entregar",
  "entendió mi situación",
  "entendio mi situacion",
  "entiende las situaciones",
  "entiende que trabajamos",
  "entiende que trabajas",
  "disponible",
  "muy disponible",
  "atiende en asesorías",
  "atiende en asesorias",
  "da asesorías",
  "da asesorias",
  "horario de asesoría",
  "horario de asesoria",
  "responde en clase",
  "escucha al alumno",
  "escucha a los alumnos" ]

/-- KEYWORDS["empatia"]["negativo"], in source order; the source list repeats the accented spelling of antipatico. -/
def kwNegativoEmpatia : List String :=
  [ "grosero",
  "grosera",
  "muy grosero",
  "muy grosera",
  "déspota",
  "despota",
  "déspota con los alumnos",
  "despota con los alumnos",
  "mal trato",
  "maltrato",
  "trata mal",
  "trata muy mal",
  "antipático",
  "antipatica",
  "antipático",
  "antipática",
  "prepotente",
  "muy prepotente",
  "soberbio",
  "soberbia",
  "arrogante",
  "arrogante con los alumnos",
  "pesado",
  "pesada",
  "muy pesado",
  "muy pesada",
  "mamón con los alumnos",
  "mamona con los alumnos",
  "no ayuda",
  "nunca ayuda",
  "no apoya",
  "no apoya a los alumnos",
  "no resuelve dudas",
  "no responde dudas",
  "ignora las dudas",
  "ignora a los alumnos",
  "no responde correos",
  "no responde mensajes",
  "no contesta correos",
  "no contesta mensajes",
  "inflexible",
  "muy inflexible",
  "no da prórrogas",
  "no da prorrogas",
  "no da oportunidad",
  "no da segundas oportunidades",
  "no entiende las situaciones",
  "no entiende que trabajamos",
  "no entiende que trabajas",
  "no le importa el alumno",
  "no le importan los alumnos",
  "le da igual el alumno",
  "le da igual la clase",
  "inaccesible",
  "muy inaccesible",
  "casi no se le encuentra",
  "no está disponible",
  "no esta disponible",
  "no atiende asesorías",
  "no atiende asesorias",
  "no escucha al alumno",
  "no escucha a los alumnos",
  "se burla de los alumnos",
  "hace comentarios hirientes" ]

/-- Lookup in the KEYWORDS table: the positive phrase list of a dimension. -/
def keywordsPositivo : Categoria → List String
  | Categoria.calidadDidactica => kwPositivoCalidadDidactica
  | Categoria.metodoEvaluacion => kwPositivoMetodoEvaluacion
  | Categoria.empatia => kwPositivoEmpatia

/-- Lookup in the KEYWORDS table: the negative phrase list of a dimension. -/
def keywordsNegativo : Categoria → List String
  | Categoria.calidadDidactica => kwNegativoCalidadDidactica
  | Categoria.metodoEvaluacion => kwNegativoMetodoEvaluacion
  | Categoria.empatia => kwNegativoEmpatia

/-- Does the character list starting here begin with the pattern?
Auxiliary for the model of the Python substring test. -/
def esPrefijo : List Char → List Char → Bool
  | [], _ => true
  | _ :: _, [] => false
  | c :: p, d :: t => c == d && esPrefijo p t

/-- Model of the Python membership test on strings:
contiene t p is true when p occurs as a contiguous substring of t
(the empty pattern occurs in every text). -/
def contiene (t p : List Char) : Bool :=
  match t with
  | [] => p.isEmpty
  | _ :: rest => esPrefijo p t || contiene rest p

/-- Model of texto.lower() composed with the substring scan: the scorer
lowers the text once and then tests each phrase with the membership test.
Char.toLower models str.lower on the ASCII range; the two agree on every
input used below and on all lexicon phrases, which are stored lowercase. -/
def textoLower (texto : String) : List Char :=
  texto.toList.map Char.toLower

/-- The positive phrases appended by the first scan loop of
calcular_score_categoria: every phrase of the positive list of the
dimension that occurs in the lowered text, in source list order. -/
def positivasEncontradas (texto : String) (categoria : Categoria) : List String :=
  (keywordsPositivo categoria).filter (fun palabra => contiene (textoLower texto) palabra.toList)

/-- The negative phrases appended by the second scan loop, in source list
order. -/
def negativasEncontradas (texto : String) (categoria : Categoria) : List String :=
  (keywordsNegativo categoria).filter (fun palabra => contiene (textoLower texto) palabra.toList)

/-- total_encontradas: the number of positive hits plus negative hits. -/
def totalEncontradas (texto : String) (categoria : Categoria) : Nat :=
  (positivasEncontradas texto categoria).length + (negativasEncontradas texto categoria).length

/-- score_positivo = len(positivas_encontradas) / total_encontradas,
as an exact rational. -/
def scorePositivo (texto : String) (categoria : Categoria) : ℚ :=
  ((positivasEncontradas texto categoria).length : ℚ) / (totalEncontradas texto categoria : ℚ)

/-- OpinionCategorizer._calcular_score_categoria: returns
(valoracion, confianza, palabras[:5]).  Zero hits give
("neutral", 0.5, []); otherwise the score is thresholded at 0.6 and 0.4,
the positive branch keeps the positive hits, the negative branch the
negative hits with confidence 1 - score, and the neutral branch the
positive hits followed by the negative hits; the final list is truncated
to at most five phrases. -/
def calcularScoreCategoria (texto : String) (categoria : Categoria) :
    String × ℚ × List String :=
  let positivas := positivasEncontradas texto categoria
  let negativas := negativasEncontradas texto categoria
  let total := positivas.length + negativas.length
  if total = 0 then
    ("neutral", 1/2, [])
  else
    let score : ℚ := (positivas.length : ℚ) / (total : ℚ)
    if score > 3/5 then
      ("positivo", score, positivas.take 5)
    else if score < 2/5 then
      ("negativo", 1 - score, negativas.take 5)
    else
      ("neutral", 1/2, (positivas ++ negativas).take 5)

/-- C1: whenever at least one lexicon phrase hits and the positivity score
pos/(pos+neg) lies in the closed band [0.4, 0.6] (both boundaries
included), _calcular_score_categoria returns valuation "neutral" with
confidence 0.5 and as keywords the first at most five phrases of the
positive-hit list followed by the negative-hit list. -/
theorem calcular_score_banda_neutral (texto : String) (categoria : Categoria)
    (h0 : totalEncontradas texto categoria ≠ 0)
    (h1 : (2 : ℚ)/5 ≤ scorePositivo texto categoria)
    (h2 : scorePositivo texto categoria ≤ 3/5) :
    calcularScoreCategoria texto categoria =
      ("neutral", 1/2,
        (positivasEncontradas texto categoria ++ negativasEncontradas texto categoria).take 5) := by
  have htot : (positivasEncontradas texto categoria).length
      + (negativasEncontradas texto categoria).length ≠ 0 := h0
  have hs1 : ¬ ((3 : ℚ)/5 < ((positivasEncontradas texto categoria).length : ℚ)
      / ((totalEncontradas texto categoria : Nat) : ℚ)) := not_lt.mpr h2
  have hs2 : ¬ (((positivasEncontradas texto categoria).length : ℚ)
      / ((totalEncontradas texto categoria : Nat) : ℚ) < 2/5) := not_lt.mpr h1
  simp only [calcularScoreCategoria, totalEncontradas] at hs1 hs2 ⊢
  rw [if_neg htot, if_neg (by simpa using hs1), if_neg (by simpa using hs2)]

/-- C1 witness: the text below hits exactly three positive and two
negative phrases of the teaching-quality lexicon, so the score is exactly
0.6 and the verdict is neutral with all five hit phrases reported. -/
theorem calcular_score_banda_neutral_witness :
    totalEncontradas "sabe mucho, llega puntual, domina bastante, aburrido, confuso"
        Categoria.calidadDidactica ≠ 0 ∧
    (2 : ℚ)/5 ≤ scorePositivo "sabe mucho, llega puntual, domina bastante, aburrido, confuso"
        Categoria.calidadDidactica ∧
    scorePositivo "sabe mucho, llega puntual, domina bastante, aburrido, confuso"
        Categoria.calidadDidactica ≤ 3/5 ∧
    calcularScoreCategoria "sabe mucho, llega puntual, domina bastante, aburrido, confuso"
        Categoria.calidadDidactica =
      ("neutral", 1/2,
        (positivasEncontradas "sabe mucho, llega puntual, domina bastante, aburrido, confuso"
            Categoria.calidadDidactica ++
          negativasEncontradas "sabe mucho, llega puntual, domina bastante, aburrido, confuso"
            Categoria.calidadDidactica).take 5) := by
  have hp : (positivasEncontradas "sabe mucho, llega puntual, domina bastante, aburrido, confuso"
      Categoria.calidadDidactica).length = 3 := by decide
  have hn : (negativasEncontradas "sabe mucho, llega puntual, domina bastante, aburrido, confuso"
      Categoria.calidadDidactica).length = 2 := by decide
  have hs : scorePositivo "sabe mucho, llega puntual, domina bastante, aburrido, confuso"
      Categoria.calidadDidactica = 3/5 := by
    simp only [scorePositivo, totalEncontradas, hp, hn]
    norm_num
  exact ⟨by decide, by rw [hs]; norm_num, by rw [hs],
    calcular_score_banda_neutral _ _ (by decide) (by rw [hs]; norm_num) (by rw [hs])⟩

/-- C2: with at least one hit, a score strictly above 0.6 yields valuation
"positivo" with confidence equal to the score and the first at most five
positive hits as keywords, and a score strictly below 0.4 yields
"negativo" with confidence 1 - score and the first at most five negative
hits. -/
theorem calcular_score_umbrales (texto : String) (categoria : Categoria)
    (h0 : totalEncontradas texto categoria ≠ 0) :
    ((3 : ℚ)/5 < scorePositivo texto categoria →
      calcularScoreCategoria texto categoria =
        ("positivo", scorePositivo texto categoria,
          (positivasEncontradas texto categoria).take 5)) ∧
    (scorePositivo texto categoria < 2/5 →
      calcularScoreCategoria texto categoria =
        ("negativo", 1 - scorePositivo texto categoria,
          (negativasEncontradas texto categoria).take 5)) := by
  have htot : (positivasEncontradas texto categoria).length
      + (negativasEncontradas texto categoria).length ≠ 0 := h0
  constructor
  · intro hgt
    have hgt' : (3 : ℚ)/5 < ((positivasEncontradas texto categoria).length : ℚ)
        / (((positivasEncontradas texto categoria).length
          + (negativasEncontradas texto categoria).length : Nat) : ℚ) := by
      simpa [scorePositivo, totalEncontradas] using hgt
    simp only [calcularScoreCategoria, scorePositivo, totalEncontradas]
    rw [if_neg htot, if_pos hgt']
  · intro hlt
    have hlt' : ((positivasEncontradas texto categoria).length : ℚ)
        / (((positivasEncontradas texto categoria).length
          + (negativasEncontradas texto categoria).length : Nat) : ℚ) < 2/5 := by
      simpa [scorePositivo, totalEncontradas] using hlt
    have hngt : ¬ ((3 : ℚ)/5 < ((positivasEncontradas texto categoria).length : ℚ)
        / (((positivasEncontradas texto categoria).length
          + (negativasEncontradas texto categoria).length : Nat) : ℚ)) := by
      intro h
      exact absurd (lt_trans hlt' (lt_trans (by norm_num) h)) (lt_irrefl _)
    simp only [calcularScoreCategoria, scorePositivo, totalEncontradas]
    rw [if_neg htot, if_neg hngt, if_pos hlt']

/-- C2 witness: "sabe mucho" hits one positive and no negative
teaching-quality phrase (score 1, positive verdict), and "aburrido" hits
one negative and no positive phrase (score 0, negative verdict). -/
theorem calcular_score_umbrales_witness :
    (totalEncontradas "sabe mucho" Categoria.calidadDidactica ≠ 0 ∧
      calcularScoreCategoria "sabe mucho" Categoria.calidadDidactica =
        ("positivo", scorePositivo "sabe mucho" Categoria.calidadDidactica,
          (positivasEncontradas "sabe mucho" Categoria.calidadDidactica).take 5)) ∧
    (totalEncontradas "aburrido" Categoria.calidadDidactica ≠ 0 ∧
      calcularScoreCategoria "aburrido" Categoria.calidadDidactica =
        ("negativo", 1 - scorePositivo "aburrido" Categoria.calidadDidactica,
          (negativasEncontradas "aburrido" Categoria.calidadDidactica).take 5)) := by
  have hp1 : (positivasEncontradas "sabe mucho" Categoria.calidadDidactica).length = 1 := by
    decide
  have hn1 : (negativasEncontradas "sabe mucho" Categoria.calidadDidactica).length = 0 := by
    decide
  have hs1 : scorePositivo "sabe mucho" Categoria.calidadDidactica = 1 := by
    simp only [scorePositivo, totalEncontradas, hp1, hn1]
    norm_num
  have hp2 : (positivasEncontradas "aburrido" Categoria.calidadDidactica).length = 0 := by
    decide
  have hn2 : (negativasEncontradas "aburrido" Categoria.calidadDidactica).length = 1 := by
    decide
  have hs2 : scorePositivo "aburrido" Categoria.calidadDidactica = 0 := by
    simp only [scorePositivo, totalEncontradas, hp2, hn2]
    norm_num
  exact ⟨⟨by decide, (calcular_score_umbrales _ _ (by decide)).1 (by rw [hs1]; norm_num)⟩,
    ⟨by decide, (calcular_score_umbrales _ _ (by decide)).2 (by rw [hs2]; norm_num)⟩⟩

/-- C5: when no positive and no negative phrase of the dimension occurs in
the lowered text, the scorer returns exactly ("neutral", 0.5, []). -/
theorem calcular_score_sin_coincidencias (texto : String) (categoria : Categoria)
    (hp : ∀ p ∈ keywordsPositivo categoria, contiene (textoLower texto) p.toList = false)
    (hn : ∀ p ∈ keywordsNegativo categoria, contiene (textoLower texto) p.toList = false) :
    calcularScoreCategoria texto categoria = ("neutral", 1/2, []) := by
  have hpe : positivasEncontradas texto categoria = [] := by
    refine List.filter_eq_nil_iff.mpr ?_
    intro a ha
    simp only [Bool.not_eq_true]
    exact hp a ha
  have hne : negativasEncontradas texto categoria = [] := by
    refine List.filter_eq_nil_iff.mpr ?_
    intro a ha
    simp only [Bool.not_eq_true]
    exact hn a ha
  simp [calcularScoreCategoria, hpe, hne]

/-- C5 witness: the empty text contains no phrase of any dimension, and
the verdict on the empathy dimension is ("neutral", 0.5, []). -/
theorem calcular_score_sin_coincidencias_witness :
    (∀ p ∈ keywordsPositivo Categoria.empatia,
        contiene (textoLower "") p.toList = false) ∧
    (∀ p ∈ keywordsNegativo Categoria.empatia,
        contiene (textoLower "") p.toList = false) ∧
    calcularScoreCategoria "" Categoria.empatia = ("neutral", 1/2, []) :=
  ⟨by decide, by decide,
    calcular_score_sin_coincidencias _ _ (by decide) (by decide)⟩

/-- Counting a phrase inside a filtered list gives its multiplicity in the
base list when the phrase passes the filter and zero otherwise. -/
theorem count_filter_eq (l : List String) (q : String → Bool) (p : String) :
    (l.filter q).count p = if q p then l.count p else 0 := by
  split
  · exact List.count_filter (by simpa)
  · refine List.count_eq_zero.mpr ?_
    intro hmem
    have hq := (List.mem_filter.mp hmem).2
    simp_all

/-- C6 counterexample: on the text "califica justo" the scorer's positive
scan for the evaluation-method dimension collects three entries although
only two distinct phrases occur, because the source lexicon lists
"califica justo" twice; that phrase alone contributes two of the three
counted hits. -/
theorem conteo_distinto_contraejemplo :
    (positivasEncontradas "califica justo" Categoria.metodoEvaluacion).length = 3 ∧
    (positivasEncontradas "califica justo" Categoria.metodoEvaluacion).dedup.length = 2 ∧
    (positivasEncontradas "califica justo" Categoria.metodoEvaluacion).count "califica justo" = 2 := by
  refine ⟨by decide, by decide, by decide⟩

/-- C6 amended: pos and neg count lexicon-list entries that hit, with
multiplicity: every phrase contributes exactly as many hits as it has
occurrences in the phrase list of the dimension (once for the phrases
listed once, twice for the three duplicated phrases). -/
theorem conteo_keyword_multiplicidad (texto : String) (categoria : Categoria) (p : String) :
    (positivasEncontradas texto categoria).count p =
      (if contiene (textoLower texto) p.toList then (keywordsPositivo categoria).count p else 0) ∧
    (negativasEncontradas texto categoria).count p =
      (if contiene (textoLower texto) p.toList then (keywordsNegativo categoria).count p else 0) :=
  ⟨count_filter_eq _ _ _, count_filter_eq _ _ _⟩

/-- Sentiment labels produced by the analyzer's label map. -/
inductive Clasificacion where
  | positivo
  | neutral
  | negativo
deriving DecidableEq, Repr

/-- The raw weight triple (positivo, neutral, negativo) built by
SentimentAnalyzer.analizar and analizar_batch: the winning class receives
the confidence and each other class half of the remainder. -/
def pesosBrutos (clasificacion : Clasificacion) (confianza : ℚ) : ℚ × ℚ × ℚ :=
  ((if clasificacion = Clasificacion.positivo then confianza else (1 - confianza)/2),
   (if clasificacion = Clasificacion.neutral then confianza else (1 - confianza)/2),
   (if clasificacion = Clasificacion.negativo then confianza else (1 - confianza)/2))

/-- The normalization step of the analyzer: each weight is divided by the
sum of the three raw weights. -/
def pesosNormalizados (clasificacion : Clasificacion) (confianza : ℚ) : ℚ × ℚ × ℚ :=
  let p := pesosBrutos clasificacion confianza
  let total := p.1 + p.2.1 + p.2.2
  (p.1 / total, p.2.1 / total, p.2.2 / total)

/-- Projection of the weight triple at a label. -/
def pesoEn (p : ℚ × ℚ × ℚ) : Clasificacion → ℚ
  | Clasificacion.positivo => p.1
  | Clasificacion.neutral => p.2.1
  | Clasificacion.negativo => p.2.2

/-- In exact arithmetic the raw weights already sum to one, so the
normalization divides by one. -/
theorem pesosBrutos_total (clasificacion : Clasificacion) (confianza : ℚ) :
    (pesosBrutos clasificacion confianza).1 + (pesosBrutos clasificacion confianza).2.1
      + (pesosBrutos clasificacion confianza).2.2 = 1 := by
  cases clasificacion <;> simp [pesosBrutos] <;> ring

/-- C9 counterexample: with label positivo and confidence 0.2 — a value
inside the claimed range [0,1] — the constructed weights give the neutral
class 0.4 and the returned label only 0.2, so the label is not the argmax
of the weights map. -/
theorem pesos_argmax_contraejemplo :
    (0 : ℚ) ≤ 1/5 ∧ (1/5 : ℚ) ≤ 1 ∧
    pesoEn (pesosNormalizados Clasificacion.positivo (1/5)) Clasificacion.positivo
      < pesoEn (pesosNormalizados Clasificacion.positivo (1/5)) Clasificacion.neutral := by
  refine ⟨by norm_num, by norm_num, ?_⟩
  have hne1 : Clasificacion.positivo ≠ Clasificacion.neutral := by
    intro h
    exact Clasificacion.noConfusion h
  have hne2 : Clasificacion.positivo ≠ Clasificacion.negativo := by
    intro h
    exact Clasificacion.noConfusion h
  simp only [pesosNormalizados, pesosBrutos, pesoEn, if_pos rfl, if_neg hne1, if_neg hne2]
  norm_num

/-- C9 amended: for every label and confidence in [0,1] the weight triple
is non-negative and sums to one, and the returned label carries a weight
at least as large as every other label's weight exactly when the
confidence is at least 1/3 (as any top-1 score of a three-class
distribution is); below 1/3 the label is not the argmax. -/
theorem pesos_invariantes (clasificacion : Clasificacion) (confianza : ℚ)
    (h0 : 0 ≤ confianza) (h1 : confianza ≤ 1) :
    (0 ≤ (pesosNormalizados clasificacion confianza).1 ∧
      0 ≤ (pesosNormalizados clasificacion confianza).2.1 ∧
      0 ≤ (pesosNormalizados clasificacion confianza).2.2) ∧
    (pesosNormalizados clasificacion confianza).1
      + (pesosNormalizados clasificacion confianza).2.1
      + (pesosNormalizados clasificacion confianza).2.2 = 1 ∧
    ((1 : ℚ)/3 ≤ confianza ↔
      ∀ c : Clasificacion,
        pesoEn (pesosNormalizados clasificacion confianza) c
          ≤ pesoEn (pesosNormalizados clasificacion confianza) clasificacion) := by
  have hkey : pesosNormalizados clasificacion confianza = pesosBrutos clasificacion confianza := by
    have htot := pesosBrutos_total clasificacion confianza
    simp only [pesosNormalizados]
    rw [htot]
    simp
  rw [hkey]
  refine ⟨?_, pesosBrutos_total clasificacion confianza, ?_⟩
  · cases clasificacion <;>
      refine ⟨?_, ?_, ?_⟩ <;>
      simp [pesosBrutos] <;> linarith
  · cases clasificacion
    · constructor
      · intro h c
        cases c <;> simp [pesoEn, pesosBrutos] <;> linarith
      · intro h
        have := h Clasificacion.neutral
        simp [pesoEn, pesosBrutos] at this
        linarith
    · constructor
      · intro h c
        cases c <;> simp [pesoEn, pesosBrutos] <;> linarith
      · intro h
        have := h Clasificacion.positivo
        simp [pesoEn, pesosBrutos] at this
        linarith
    · constructor
      · intro h c
        cases c <;> simp [pesoEn, pesosBrutos] <;> linarith
      · intro h
        have := h Clasificacion.positivo
        simp [pesoEn, pesosBrutos] at this
        linarith

/-- C9 witness: at label positivo with confidence 0.9 the amended
invariants hold, and since 0.9 is at least 1/3 the label is the argmax. -/
theorem pesos_invariantes_witness :
    (0 : ℚ) ≤ 9/10 ∧ (9/10 : ℚ) ≤ 1 ∧
    ((1 : ℚ)/3 ≤ 9/10 ↔
      ∀ c : Clasificacion,
        pesoEn (pesosNormalizados Clasificacion.positivo (9/10)) c
          ≤ pesoEn (pesosNormalizados Clasificacion.positivo (9/10)) Clasificacion.positivo) :=
  ⟨by norm_num, by norm_num,
    (pesos_invariantes Clasificacion.positivo (9/10) (by norm_num) (by norm_num)).2.2⟩

/-- A stored opinion document, restricted to the fields the pipeline reads
(identifier, comment, the two scope attributes) and writes (the analizado
flag of each annotation sub-record; the payload fields of the sub-records
are irrelevant to every property below and are omitted). -/
structure Opinion where
  oid : Nat
  comentario : String
  profesorId : Nat
  curso : String
  sentAnalizado : Bool
  catAnalizado : Bool
deriving DecidableEq, Repr

/-- The opiniones collection in its natural order. -/
abbrev Store := List Opinion

/-- repository.obtener_opiniones_pendientes_sentimiento: the query
find on sentimiento_general.analizado = False with skip(skip).limit(limit)
materialized through cursor.to_list(length=limit).  to_list rejects a
negative length with a ValueError — modelled as the error case — and caps
the returned list at length documents, so limit = 0 yields the empty list
even though the cursor-level limit 0 would mean unbounded. -/
def obtenerOpinionesPendientesSentimiento (store : Store) (limit : Int) (skip : Nat) :
    Except Unit (List Opinion) :=
  if limit < 0 then Except.error ()
  else Except.ok (((store.filter (fun o => !o.sentAnalizado)).drop skip).take limit.toNat)

/-- repository.obtener_opiniones_por_profesor: find on profesor_id with
skip and limit, materialized through to_list(length=limit) as above. -/
def obtenerOpinionesPorProfesor (store : Store) (profesorId : Nat) (limit : Int) (skip : Nat) :
    Except Unit (List Opinion) :=
  if limit < 0 then Except.error ()
  else Except.ok (((store.filter (fun o => o.profesorId == profesorId)).drop skip).take limit.toNat)

/-- The case-insensitive course match of repository.obtener_opiniones_por_curso:
the stored curso field matches when the pattern occurs in it ignoring case
(the regex option i with a pattern free of metacharacters). -/
def cursoCoincide (cursoDoc patron : String) : Bool :=
  contiene (cursoDoc.toList.map Char.toLower) (patron.toList.map Char.toLower)

/-- repository.obtener_opiniones_por_curso: find with the case-insensitive
regex on curso, skip and limit, materialized through to_list as above. -/
def obtenerOpinionesPorCurso (store : Store) (curso : String) (limit : Int) (skip : Nat) :
    Except Unit (List Opinion) :=
  if limit < 0 then Except.error ()
  else Except.ok (((store.filter (fun o => cursoCoincide o.curso curso)).drop skip).take limit.toNat)

/-- repository.actualizar_sentimiento_general: update_one sets the
sentimiento_general sub-record (with analizado = True and a fresh
timestamp) on the first document whose identifier matches and returns
modified_count > 0; a matched document is always modified because of the
timestamp, so the call reports true exactly when a document matched. -/
def actualizarSentimientoGeneral : Store → Nat → Store × Bool
  | [], _ => ([], false)
  | o :: rest, oid =>
    if o.oid = oid then ({ o with sentAnalizado := true } :: rest, true)
    else
      let r := actualizarSentimientoGeneral rest oid
      (o :: r.1, r.2)

/-- repository.actualizar_categorizacion: like the sentiment write, on the
categorizacion sub-record. -/
def actualizarCategorizacion : Store → Nat → Store × Bool
  | [], _ => ([], false)
  | o :: rest, oid =>
    if o.oid = oid then ({ o with catAnalizado := true } :: rest, true)
    else
      let r := actualizarCategorizacion rest oid
      (o :: r.1, r.2)

/-- Outcome of one repository sub-write as seen by the persistence loop:
the error case models an exception escaping the awaited call, ok b the
returned boolean (false when no document was modified). -/
abbrev ResultadoEscritura := Except Unit Bool

/-- One entry of the detalles list of the report: the opinion identifier
and whether the item was counted exitoso. -/
structure Detalle where
  opinionId : Nat
  exitoso : Bool
deriving DecidableEq, Repr

/-- The body of the persistence loop for one opinion: the item is a
success exactly when neither sub-write raises and both report a modified
document; an exception anywhere in the body lands in the per-item except
branch and counts the item as an error. -/
def persistirUno (sent cat : ResultadoEscritura) : Bool :=
  match sent, cat with
  | Except.ok a, Except.ok b => a && b
  | _, _ => false

/-- The persistence loop of procesar_pendientes abstracted over the
outcomes of each item's two sub-writes: returns
(exitosas, errores, detalles) accumulated in input order. -/
def etapaPersistencia : List (Nat × ResultadoEscritura × ResultadoEscritura) →
    Nat × Nat × List Detalle
  | [] => (0, 0, [])
  | (oid, sent, cat) :: rest =>
    let ok := persistirUno sent cat
    let r := etapaPersistencia rest
    ((if ok then 1 else 0) + r.1, (if ok then 0 else 1) + r.2.1, ⟨oid, ok⟩ :: r.2.2)

/-- The statistics dictionary returned by procesar_pendientes.  The
classifier-failure early return carries mensaje_error instead of detalles;
it is modelled with an empty detalles list and the message. -/
structure Reporte where
  procesadas : Nat
  exitosas : Nat
  errores : Nat
  detalles : List Detalle
  mensajeError : Option String
deriving DecidableEq, Repr

/-- The store-threading persistence loop of procesar_pendientes: for each
fetched opinion the sentiment sub-write runs first, then the
categorization sub-write against the updated store; in this honest store
model the repository calls return booleans and never raise (the source
repository functions catch their own exceptions and return False). -/
def persistirOpiniones : Store → List Opinion → Store × Nat × Nat × List Detalle
  | s, [] => (s, 0, 0, [])
  | s, op :: rest =>
    let w1 := actualizarSentimientoGeneral s op.oid
    let w2 := actualizarCategorizacion w1.1 op.oid
    let ok := persistirUno (Except.ok w1.2) (Except.ok w2.2)
    let r := persistirOpiniones w2.1 rest
    (r.1, (if ok then 1 else 0) + r.2.1, (if ok then 0 else 1) + r.2.2.1,
      ⟨op.oid, ok⟩ :: r.2.2.2)

/-- OpinionProcessor.procesar_pendientes with force = False: fetch up to
limit pending opinions in one query, classify the whole fetched list with
one analizar_batch call, categorize (the keyword scorer cannot fail),
then persist each item and aggregate the report.  The classifier is the
opaque external collaborator, a function from the batch of texts to a
failure or to one result per text; its per-text payload does not influence
the control flow modelled here, so the result type is Unit.  If the
classifier call raises, the invocation returns immediately with
procesadas = 0, errores = the number of fetched opinions, no per-item
details and nothing persisted.  The zip of identifiers with the two result
lists truncates to the shorter list.  A fetch failure propagates out of
the invocation.  The updated store is returned next to the report. -/
def procesarPendientes (classify : List String → Except String (List Unit))
    (store : Store) (limit : Int) (skip : Nat) : Except Unit (Store × Reporte) :=
  match obtenerOpinionesPendientesSentimiento store limit skip with
  | Except.error e => Except.error e
  | Except.ok opiniones =>
    if opiniones.isEmpty then
      Except.ok (store, ⟨0, 0, 0, [], none⟩)
    else
      match classify (opiniones.map (fun o => o.comentario)) with
      | Except.error msg =>
        Except.ok (store, ⟨0, 0, opiniones.length, [], some msg⟩)
      | Except.ok resultados =>
        let items := opiniones.take resultados.length
        let r := persistirOpiniones store items
        Except.ok (r.1, ⟨opiniones.length, r.2.1, r.2.2.1, r.2.2.2, none⟩)

/-- The pending filter shared by procesar_por_profesor and
procesar_por_curso: keep the opinions with either analizado flag still
false. -/
def opinionesPendientesScoped (ops : List Opinion) : List Opinion :=
  ops.filter (fun op => !op.sentAnalizado || !op.catAnalizado)

/-- The selection stage of procesar_por_profesor: fetch the professor's
opinions (skip defaults to 0), then keep those still pending either
annotation. -/
def seleccionPorProfesor (store : Store) (profesorId : Nat) (limit : Int) :
    Except Unit (List Opinion) :=
  Except.map opinionesPendientesScoped (obtenerOpinionesPorProfesor store profesorId limit 0)

/-- The selection stage of procesar_por_curso, with the same pending
filter over the course fetch. -/
def seleccionPorCurso (store : Store) (curso : String) (limit : Int) :
    Except Unit (List Opinion) :=
  Except.map opinionesPendientesScoped (obtenerOpinionesPorCurso store curso limit 0)

/-- A single persisted item succeeds exactly when both sub-writes return
ok true: any raised error or a false (no document modified) return on
either sub-write makes the item an error. -/
theorem persistirUno_iff (sent cat : ResultadoEscritura) :
    persistirUno sent cat = true ↔
      sent = Except.ok true ∧ cat = Except.ok true := by
  cases sent <;> cases cat <;> simp [persistirUno]

/-- The persistence stage emits one detalles entry per item. -/
theorem etapaPersistencia_detalles_length
    (items : List (Nat × ResultadoEscritura × ResultadoEscritura)) :
    (etapaPersistencia items).2.2.length = items.length := by
  induction items with
  | nil => rfl
  | cons hd tl ih =>
    obtain ⟨oid, sent, cat⟩ := hd
    simp [etapaPersistencia, ih]

/-- The persistence stage counts every item exactly once. -/
theorem etapaPersistencia_cuentas
    (items : List (Nat × ResultadoEscritura × ResultadoEscritura)) :
    (etapaPersistencia items).1 + (etapaPersistencia items).2.1 = items.length := by
  induction items with
  | nil => rfl
  | cons hd tl ih =>
    obtain ⟨oid, sent, cat⟩ := hd
    simp only [etapaPersistencia, List.length_cons]
    cases persistirUno sent cat <;> simp <;> omega

/-- The report entry of item i is a function of item i's own sub-write
outcomes alone. -/
theorem etapaPersistencia_getElem
    (items : List (Nat × ResultadoEscritura × ResultadoEscritura))
    (i oid : Nat) (sent cat : ResultadoEscritura)
    (hi : items[i]? = some (oid, sent, cat)) :
    (etapaPersistencia items).2.2[i]? = some ⟨oid, persistirUno sent cat⟩ := by
  induction items generalizing i with
  | nil => simp at hi
  | cons hd tl ih =>
    obtain ⟨o2, s2, c2⟩ := hd
    cases i with
    | zero =>
      simp only [List.getElem?_cons_zero, Option.some.injEq] at hi
      cases hi
      simp [etapaPersistencia]
    | succ j =>
      simp only [List.getElem?_cons_succ] at hi
      simpa [etapaPersistencia] using ih j hi

/-- C4: given the outcomes of the two sub-writes of every fetched item,
the persistence stage reports exactly one outcome per item, counts every
item once as exitosa or error, reports item i purely as a function of item
i's own outcomes (so no sibling's failure can change it), and an item is
exitosa iff both sub-writes neither raise nor report "no document
modified". -/
theorem persistencia_aislamiento_por_item
    (items : List (Nat × ResultadoEscritura × ResultadoEscritura))
    (i oid : Nat) (sent cat : ResultadoEscritura)
    (hi : items[i]? = some (oid, sent, cat)) :
    (etapaPersistencia items).2.2.length = items.length ∧
    (etapaPersistencia items).1 + (etapaPersistencia items).2.1 = items.length ∧
    (etapaPersistencia items).2.2[i]? = some ⟨oid, persistirUno sent cat⟩ ∧
    (persistirUno sent cat = true ↔
      sent = Except.ok true ∧ cat = Except.ok true) :=
  ⟨etapaPersistencia_detalles_length items, etapaPersistencia_cuentas items,
    etapaPersistencia_getElem items i oid sent cat hi, persistirUno_iff sent cat⟩

/-- Concrete two-item persistence input: the first item's writes succeed,
the second item's sentiment write raises. -/
def itemsDemo : List (Nat × ResultadoEscritura × ResultadoEscritura) :=
  [(1, Except.ok true, Except.ok true), (2, Except.error (), Except.ok true)]

/-- C4 witness: on the concrete input the second item is reported as a
failure while the first stays a success, with one entry per item. -/
theorem persistencia_aislamiento_por_item_witness :
    itemsDemo[1]? = some (2, Except.error (), Except.ok true) ∧
    ((etapaPersistencia itemsDemo).2.2.length = itemsDemo.length ∧
      (etapaPersistencia itemsDemo).1 + (etapaPersistencia itemsDemo).2.1 = itemsDemo.length ∧
      (etapaPersistencia itemsDemo).2.2[1]? =
        some ⟨2, persistirUno (Except.error ()) (Except.ok true)⟩ ∧
      (persistirUno (Except.error ()) (Except.ok true) = true ↔
        (Except.error () : ResultadoEscritura) = Except.ok true ∧
          (Except.ok true : ResultadoEscritura) = Except.ok true)) :=
  ⟨rfl, persistencia_aislamiento_por_item itemsDemo 1 2 (Except.error ()) (Except.ok true) rfl⟩

/-- A fresh, fully pending opinion document with the given identifier. -/
def opinionPendiente (n : Nat) : Opinion :=
  ⟨n, "texto de prueba", 7, "calculo", false, false⟩

/-- A store of three pending opinions. -/
def tiendaTres : Store :=
  [opinionPendiente 1, opinionPendiente 2, opinionPendiente 3]

/-- A store with a single pending opinion. -/
def tiendaUno : Store := [opinionPendiente 1]

/-- A classifier stub whose batch call always raises. -/
def clasificadorFalla : List String → Except String (List Unit) :=
  fun _ => Except.error "fallo de red"

/-- A classifier stub whose batch call always returns one result per
text. -/
def clasificadorOk : List String → Except String (List Unit) :=
  fun ts => Except.ok (ts.map (fun _ => ()))

/-- C3 amended: when the single classifier batch call fails, the whole
invocation returns at once with procesadas = 0, exitosas = 0, errores
equal to the full number of fetched opinions, an empty per-item report and
the store untouched — the failure is not confined to one internal batch
and no later item is reported on its own merits. -/
theorem clasificador_fallo_aborta
    (classify : List String → Except String (List Unit))
    (store : Store) (limit : Int) (skip : Nat)
    (opiniones : List Opinion) (msg : String)
    (hf : obtenerOpinionesPendientesSentimiento store limit skip = Except.ok opiniones)
    (hne : opiniones ≠ [])
    (hc : classify (opiniones.map (fun o => o.comentario)) = Except.error msg) :
    procesarPendientes classify store limit skip =
      Except.ok (store, ⟨0, 0, opiniones.length, [], some msg⟩) := by
  unfold procesarPendientes
  rw [hf]
  have hie : opiniones.isEmpty = false := by
    cases opiniones with
    | nil => exact absurd rfl hne
    | cons a l => rfl
  simp only [hie, Bool.false_eq_true, if_false, hc]

/-- C3 counterexample: with three pending opinions (three internal batches
at batch size one) and a failing classifier call, the run reports no
per-item outcome at all (detalles is empty), counts all three items as
errores rather than only the failing batch, persists nothing and returns
immediately — contradicting the claim that the other batches' items are
still reported individually on their own merits. -/
theorem clasificador_fallo_contraejemplo :
    procesarPendientes clasificadorFalla tiendaTres 10 0 =
      Except.ok (tiendaTres, ⟨0, 0, 3, [], some "fallo de red"⟩) := by
  rfl

/-- C3 witness for the amended statement, at the same concrete input. -/
theorem clasificador_fallo_aborta_witness :
    obtenerOpinionesPendientesSentimiento tiendaTres 10 0 = Except.ok tiendaTres ∧
    tiendaTres ≠ [] ∧
    procesarPendientes clasificadorFalla tiendaTres 10 0 =
      Except.ok (tiendaTres, ⟨0, 0, tiendaTres.length, [], some "fallo de red"⟩) :=
  ⟨rfl, by decide,
    clasificador_fallo_aborta clasificadorFalla tiendaTres 10 0 tiendaTres
      "fallo de red" rfl (by decide) rfl⟩

/-- C8 amended: limit = 0 makes the fetch return the empty list (the
to_list length cap), so the run attempts nothing and reports all zeros; a
negative limit makes the fetch raise and the invocation fail; neither is a
"no limit" mode.  The translation of a non-positive limit into the pending
count happens in the excluded CLI layer, before the pipeline is called. -/
theorem limite_no_positivo
    (classify : List String → Except String (List Unit))
    (store : Store) (skip : Nat) :
    procesarPendientes classify store 0 skip =
      Except.ok (store, ⟨0, 0, 0, [], none⟩) ∧
    (∀ limit : Int, limit < 0 →
      procesarPendientes classify store limit skip = Except.error ()) := by
  constructor
  · unfold procesarPendientes obtenerOpinionesPendientesSentimiento
    simp
  · intro limit hl
    unfold procesarPendientes obtenerOpinionesPendientesSentimiento
    rw [if_pos hl]

/-- C8 counterexample: a store holding one pending opinion run with
limit = 0 attempts zero items (the report is all zeros and the store is
unchanged), although the claim requires every currently pending item to be
fetched and attempted when limit is non-positive. -/
theorem limite_cero_contraejemplo :
    (tiendaUno.filter (fun o => !o.sentAnalizado)).length = 1 ∧
    procesarPendientes clasificadorOk tiendaUno 0 0 =
      Except.ok (tiendaUno, ⟨0, 0, 0, [], none⟩) :=
  ⟨by decide, by rfl⟩

/-- C8 witness for the amended statement: the zero-limit run on the
one-pending store, and the failing fetch at limit -1. -/
theorem limite_no_positivo_witness :
    procesarPendientes clasificadorOk tiendaUno 0 0 =
      Except.ok (tiendaUno, ⟨0, 0, 0, [], none⟩) ∧
    (-1 : Int) < 0 ∧
    procesarPendientes clasificadorOk tiendaUno (-1) 0 = Except.error () :=
  ⟨(limite_no_positivo clasificadorOk tiendaUno 0).1, by norm_num,
    (limite_no_positivo clasificadorOk tiendaUno 0).2 (-1) (by norm_num)⟩

/-- C10: the global run's fetch keeps only opinions whose sentiment flag
is false, so an opinion with sentiment already analyzed — even one whose
categorization is still pending — is never selected; the by-professor and
by-course selections keep, among the fetched opinions of the scope,
exactly those with either analizado flag false. -/
theorem seleccion_pendientes_alcances (store : Store) (limit : Int)
    (skip profesorId : Nat) (curso : String) (o : Opinion) :
    (o.sentAnalizado = true →
      ∀ res, obtenerOpinionesPendientesSentimiento store limit skip = Except.ok res →
        o ∉ res) ∧
    (∀ fres pres, obtenerOpinionesPorProfesor store profesorId limit 0 = Except.ok fres →
      seleccionPorProfesor store profesorId limit = Except.ok pres →
      (o ∈ pres ↔ o ∈ fres ∧ (o.sentAnalizado = false ∨ o.catAnalizado = false))) ∧
    (∀ fres pres, obtenerOpinionesPorCurso store curso limit 0 = Except.ok fres →
      seleccionPorCurso store curso limit = Except.ok pres →
      (o ∈ pres ↔ o ∈ fres ∧ (o.sentAnalizado = false ∨ o.catAnalizado = false))) := by
  refine ⟨?_, ?_, ?_⟩
  · intro hsent res hres hmem
    unfold obtenerOpinionesPendientesSentimiento at hres
    by_cases hl : limit < 0
    · rw [if_pos hl] at hres
      exact Except.noConfusion hres
    · rw [if_neg hl] at hres
      cases hres
      have h1 := List.mem_of_mem_drop (List.mem_of_mem_take hmem)
      have h2 := (List.mem_filter.mp h1).2
      rw [hsent] at h2
      simp at h2
  · intro fres pres hf hp
    unfold seleccionPorProfesor at hp
    rw [hf] at hp
    simp only [Except.map] at hp
    cases hp
    unfold opinionesPendientesScoped
    rw [List.mem_filter]
    constructor
    · rintro ⟨hm, hcond⟩
      refine ⟨hm, ?_⟩
      rcases Bool.or_eq_true_iff.mp hcond with h | h
      · left
        simpa using h
      · right
        simpa using h
    · rintro ⟨hm, hcond⟩
      refine ⟨hm, ?_⟩
      rcases hcond with h | h
      · exact Bool.or_eq_true_iff.mpr (Or.inl (by simp [h]))
      · exact Bool.or_eq_true_iff.mpr (Or.inr (by simp [h]))
  · intro fres pres hf hp
    unfold seleccionPorCurso at hp
    rw [hf] at hp
    simp only [Except.map] at hp
    cases hp
    unfold opinionesPendientesScoped
    rw [List.mem_filter]
    constructor
    · rintro ⟨hm, hcond⟩
      refine ⟨hm, ?_⟩
      rcases Bool.or_eq_true_iff.mp hcond with h | h
      · left
        simpa using h
      · right
        simpa using h
    · rintro ⟨hm, hcond⟩
      refine ⟨hm, ?_⟩
      rcases hcond with h | h
      · exact Bool.or_eq_true_iff.mpr (Or.inl (by simp [h]))
      · exact Bool.or_eq_true_iff.mpr (Or.inr (by simp [h]))

/-- An opinion whose sentiment is analyzed but whose categorization is
still pending. -/
def opinionMixta : Opinion := ⟨1, "texto", 7, "calculo", true, false⟩

/-- C10 witness: on a store holding only the mixed opinion, the global
fetch returns the empty list and excludes it, while the by-professor and
by-course selections keep it because its categorization flag is false. -/
theorem seleccion_pendientes_alcances_witness :
    opinionMixta.sentAnalizado = true ∧
    opinionMixta ∉ ([] : List Opinion) ∧
    (opinionMixta ∈ [opinionMixta] ↔ opinionMixta ∈ [opinionMixta] ∧
      (opinionMixta.sentAnalizado = false ∨ opinionMixta.catAnalizado = false)) ∧
    (opinionMixta ∈ [opinionMixta] ↔ opinionMixta ∈ [opinionMixta] ∧
      (opinionMixta.sentAnalizado = false ∨ opinionMixta.catAnalizado = false)) :=
  ⟨rfl,
    (seleccion_pendientes_alcances [opinionMixta] 10 0 7 "calc" opinionMixta).1 rfl [] rfl,
    (seleccion_pendientes_alcances [opinionMixta] 10 0 7 "calc" opinionMixta).2.1
      [opinionMixta] [opinionMixta] rfl rfl,
    (seleccion_pendientes_alcances [opinionMixta] 10 0 7 "calc" opinionMixta).2.2
      [opinionMixta] [opinionMixta] rfl rfl⟩

/-- The sentiment write permutes no documents: the identifier sequence of
the store is unchanged. -/
theorem actualizarSentimientoGeneral_oids (s : Store) (oid : Nat) :
    ((actualizarSentimientoGeneral s oid).1).map (fun o => o.oid) =
      s.map (fun o => o.oid) := by
  induction s with
  | nil => rfl
  | cons o rest ih =>
    by_cases h : o.oid = oid
    · simp [actualizarSentimientoGeneral, h]
    · simp [actualizarSentimientoGeneral, h, ih]

/-- The categorization write keeps the identifier sequence unchanged. -/
theorem actualizarCategorizacion_oids (s : Store) (oid : Nat) :
    ((actualizarCategorizacion s oid).1).map (fun o => o.oid) =
      s.map (fun o => o.oid) := by
  induction s with
  | nil => rfl
  | cons o rest ih =>
    by_cases h : o.oid = oid
    · simp [actualizarCategorizacion, h]
    · simp [actualizarCategorizacion, h, ih]

/-- Every document of the store after a categorization write descends from
a document of the old store with the same identifier and the same
sentiment flag. -/
theorem actualizarCategorizacion_mem (s : Store) (oid : Nat) :
    ∀ o' ∈ (actualizarCategorizacion s oid).1,
      ∃ o ∈ s, o'.oid = o.oid ∧ o'.sentAnalizado = o.sentAnalizado := by
  induction s with
  | nil =>
    intro o' h
    simp [actualizarCategorizacion] at h
  | cons o rest ih =>
    intro o' h
    by_cases he : o.oid = oid
    · rw [actualizarCategorizacion, if_pos he] at h
      rcases List.mem_cons.mp h with h | h
      · exact ⟨o, List.mem_cons_self o rest, by simp [h]⟩
      · exact ⟨o', List.mem_cons_of_mem o h, rfl, rfl⟩
    · rw [actualizarCategorizacion, if_neg he] at h
      rcases List.mem_cons.mp h with h | h
      · exact ⟨o, List.mem_cons_self o rest, by simp [h]⟩
      · obtain ⟨o0, ho0, h1, h2⟩ := ih o' h
        exact ⟨o0, List.mem_cons_of_mem o ho0, h1, h2⟩

/-- Every document of the store after a sentiment write is either an
untouched document of the old store or carries the written identifier with
its sentiment flag set. -/
theorem actualizarSentimientoGeneral_mem (s : Store) (oid : Nat) :
    ∀ o' ∈ (actualizarSentimientoGeneral s oid).1,
      o' ∈ s ∨ (o'.oid = oid ∧ o'.sentAnalizado = true) := by
  induction s with
  | nil =>
    intro o' h
    simp [actualizarSentimientoGeneral] at h
  | cons o rest ih =>
    intro o' h
    by_cases he : o.oid = oid
    · rw [actualizarSentimientoGeneral, if_pos he] at h
      rcases List.mem_cons.mp h with h | h
      · right
        rw [h]
        exact ⟨he, rfl⟩
      · exact Or.inl (List.mem_cons_of_mem o h)
    · rw [actualizarSentimientoGeneral, if_neg he] at h
      rcases List.mem_cons.mp h with h | h
      · exact Or.inl (h ▸ List.mem_cons_self o rest)
      · rcases ih o' h with h' | h'
        · exact Or.inl (List.mem_cons_of_mem o h')
        · exact Or.inr h'

/-- Under unique identifiers, after a sentiment write every document
carrying the written identifier has its sentiment flag set (the unique
match was the rewritten document). -/
theorem actualizarSentimientoGeneral_hit (s : Store) (oid : Nat)
    (hnd : (s.map (fun o => o.oid)).Nodup) :
    ∀ o' ∈ (actualizarSentimientoGeneral s oid).1, o'.oid = oid →
      o'.sentAnalizado = true := by
  induction s with
  | nil =>
    intro o' h
    simp [actualizarSentimientoGeneral] at h
  | cons o rest ih =>
    intro o' h hoid
    rw [List.map_cons, List.nodup_cons] at hnd
    by_cases he : o.oid = oid
    · rw [actualizarSentimientoGeneral, if_pos he] at h
      rcases List.mem_cons.mp h with h | h
      · rw [h]
      · have hcontra : o'.oid ∈ rest.map (fun o => o.oid) :=
          List.mem_map_of_mem (fun o => o.oid) h
        rw [hoid, ← he] at hcontra
        exact absurd hcontra hnd.1
    · rw [actualizarSentimientoGeneral, if_neg he] at h
      rcases List.mem_cons.mp h with h | h
      · exact absurd (h ▸ hoid) he
      · exact ih hnd.2 o' h hoid

/-- Running the persistence loop over a work list that covers every
document whose sentiment flag is still false leaves a store in which every
document has its sentiment flag set (identifiers unique). -/
theorem persistirOpiniones_sent (L : List Opinion) (s : Store)
    (hnd : (s.map (fun o => o.oid)).Nodup)
    (hinv : ∀ o ∈ s, o.sentAnalizado = true ∨ o.oid ∈ L.map (fun o => o.oid)) :
    ∀ o' ∈ (persistirOpiniones s L).1, o'.sentAnalizado = true := by
  induction L generalizing s with
  | nil =>
    intro o' h
    have h' : o' ∈ s := by simpa [persistirOpiniones] using h
    rcases hinv o' h' with h'' | h''
    · exact h''
    · simp at h''
  | cons op rest ih =>
    intro o' ho'
    have ho'' : o' ∈ (persistirOpiniones
        ((actualizarCategorizacion ((actualizarSentimientoGeneral s op.oid).1) op.oid).1)
        rest).1 := by
      simpa [persistirOpiniones] using ho'
    have hnd1 : (((actualizarSentimientoGeneral s op.oid).1).map (fun o => o.oid)).Nodup := by
      rw [actualizarSentimientoGeneral_oids]
      exact hnd
    have hnd2 : (((actualizarCategorizacion ((actualizarSentimientoGeneral s op.oid).1)
        op.oid).1).map (fun o => o.oid)).Nodup := by
      rw [actualizarCategorizacion_oids]
      exact hnd1
    refine ih _ hnd2 ?_ o' ho''
    intro o2 h2
    obtain ⟨o1, h1, hoid, hsent⟩ :=
      actualizarCategorizacion_mem ((actualizarSentimientoGeneral s op.oid).1) op.oid o2 h2
    by_cases hx : o1.oid = op.oid
    · left
      rw [hsent]
      exact actualizarSentimientoGeneral_hit s op.oid hnd o1 h1 hx
    · rcases actualizarSentimientoGeneral_mem s op.oid o1 h1 with h0 | ⟨hoid', _⟩
      · rcases hinv o1 h0 with hT | hm
        · left
          rw [hsent]
          exact hT
        · right
          rw [List.map_cons, List.mem_cons] at hm
          rcases hm with hm | hm
          · exact absurd hm hx
          · rw [hoid]
            exact hm
      · exact absurd hoid' hx

/-- C7: a run over a store with unique identifiers whose limit covers the
whole pending set (skip 0) and whose classifier call succeeds with one
result per text leaves a store in which nothing is pending, so an
immediately repeated run fetches nothing and reports attempted
(procesadas) = 0. -/
theorem segunda_ejecucion_vacia
    (classify : List String → Except String (List Unit))
    (store : Store) (limit : Int) (res1 : Store × Reporte)
    (hnd : (store.map (fun o => o.oid)).Nodup)
    (hlim : ((store.filter (fun o => !o.sentAnalizado)).length : Int) ≤ limit)
    (hcl : ∀ ts, ∃ rs, classify ts = Except.ok rs ∧ rs.length = ts.length)
    (h1 : procesarPendientes classify store limit 0 = Except.ok res1) :
    ∃ res2, procesarPendientes classify res1.1 limit 0 = Except.ok res2 ∧
      res2.2.procesadas = 0 := by
  have hl0 : ¬ limit < 0 := by omega
  have htake : (store.filter (fun o => !o.sentAnalizado)).length ≤ limit.toNat := by
    omega
  have hfetch : obtenerOpinionesPendientesSentimiento store limit 0 =
      Except.ok (store.filter (fun o => !o.sentAnalizado)) := by
    unfold obtenerOpinionesPendientesSentimiento
    rw [if_neg hl0, List.drop_zero, List.take_of_length_le htake]
  by_cases hPe : (store.filter (fun o => !o.sentAnalizado)).isEmpty
  · rw [procesarPendientes, hfetch] at h1
    simp only [hPe, if_true] at h1
    cases h1
    exact ⟨(store, ⟨0, 0, 0, [], none⟩), by rw [procesarPendientes, hfetch]; simp [hPe], rfl⟩
  · obtain ⟨rs, hcs, hlen⟩ :=
      hcl ((store.filter (fun o => !o.sentAnalizado)).map (fun o => o.comentario))
    have hitems : (store.filter (fun o => !o.sentAnalizado)).take rs.length =
        store.filter (fun o => !o.sentAnalizado) := by
      rw [hlen, List.length_map]
      exact List.take_length _
    rw [procesarPendientes, hfetch] at h1
    simp only [hPe, Bool.false_eq_true, if_false, hcs, hitems] at h1
    cases h1
    have hall : ∀ o' ∈ (persistirOpiniones store
        (store.filter (fun o => !o.sentAnalizado))).1, o'.sentAnalizado = true := by
      refine persistirOpiniones_sent _ store hnd ?_
      intro o ho
      by_cases hs : o.sentAnalizado
      · exact Or.inl hs
      · right
        have hmf : o ∈ store.filter (fun o => !o.sentAnalizado) :=
          List.mem_filter.mpr ⟨ho, by simp [hs]⟩
        exact List.mem_map_of_mem (fun o => o.oid) hmf
    have hpend2 : ((persistirOpiniones store
        (store.filter (fun o => !o.sentAnalizado))).1).filter
          (fun o => !o.sentAnalizado) = [] := by
      refine List.filter_eq_nil_iff.mpr ?_
      intro a ha
      simp [hall a ha]
    have hfetch2 : obtenerOpinionesPendientesSentimiento
        (persistirOpiniones store (store.filter (fun o => !o.sentAnalizado))).1
        limit 0 = Except.ok [] := by
      unfold obtenerOpinionesPendientesSentimiento
      rw [if_neg hl0, hpend2]
      simp
    exact ⟨((persistirOpiniones store (store.filter (fun o => !o.sentAnalizado))).1,
        ⟨0, 0, 0, [], none⟩),
      by rw [procesarPendientes, hfetch2]; rfl, rfl⟩

/-- The one-pending store after its first fully successful run: both
flags set. -/
def tiendaUnoAnalizada : Store :=
  [⟨1, "texto de prueba", 7, "calculo", true, true⟩]

/-- C7 witness: the first run over the one-pending store succeeds on its
only item, and the repeated run fetches nothing and reports
procesadas = 0. -/
theorem segunda_ejecucion_vacia_witness :
    (tiendaUno.map (fun o => o.oid)).Nodup ∧
    ((tiendaUno.filter (fun o => !o.sentAnalizado)).length : Int) ≤ 10 ∧
    procesarPendientes clasificadorOk tiendaUno 10 0 =
      Except.ok (tiendaUnoAnalizada, ⟨1, 1, 0, [⟨1, true⟩], none⟩) ∧
    ∃ res2, procesarPendientes clasificadorOk tiendaUnoAnalizada 10 0 = Except.ok res2 ∧
      res2.2.procesadas = 0 :=
  ⟨by decide, by decide, rfl,
    segunda_ejecucion_vacia clasificadorOk tiendaUno 10
      (tiendaUnoAnalizada, ⟨1, 1, 0, [⟨1, true⟩], none⟩)
      (by decide) (by decide)
      (fun ts => ⟨ts.map (fun _ => ()), rfl, by simp⟩) rfl⟩
